import Mathlib

/-!
Shallow embedding of the KubeS3 reconciliation core
(`internal/controller/s3bucket_controller.go` and `internal/models/operator.go`).

External effects (object-store get/patch, secret lookup, AWS session,
create/delete bucket, the await calls) are modelled as explicit outcome
inputs; each handler reports its result together with the list of writes it
issued against the object store, so persistence properties are statements
about that list.  A nil Go annotation map is `Option.none`: reading from it
yields the zero value `""`, writing to it panics, which the embedding
renders as an overall `none` result.
-/

namespace KubeS3

/-! Constants from `internal/models/operator.go`. -/

def StateAnnotKey : String := "nullzen.ai/state"

def CreatingEvent : String := "creating"

def CreatedEvent : String := "created"

def UpdatingEvent : String := "updating"

def UpdatedEvent : String := "updated"

def DeletingEvent : String := "deleting"

def DeletedEvent : String := "deleted"

def GenericEvent : String := "generic"

def DeletionFinalizer : String := "nullzen.ai/deletionFinalizer"

/-! Annotation maps.  Go `map[string]string` as an association list. -/

abbrev AnnMap := List (String × String)

/-- `m[k]` on a Go string map: the value if present, the zero value `""` otherwise. -/
def getAnnList (m : AnnMap) (k : String) : String :=
  match m.find? (fun p => p.1 == k) with
  | some p => p.2
  | none => ""

/-- `m[k] = v` on a non-nil Go map: store `v` under `k`, replacing any prior binding. -/
def setAnnList (m : AnnMap) (k v : String) : AnnMap :=
  (k, v) :: m.filter (fun p => p.1 != k)

/-- Reading `b.Annotations[k]` when the map may be nil: a nil map reads as `""`. -/
def getAnn (m : Option AnnMap) (k : String) : String :=
  match m with
  | none => ""
  | some l => getAnnList l k

/-! Data model: the S3Bucket custom resource and the credentials secret. -/

structure SecretRef where
  name : String
  namesp : String
deriving Repr, DecidableEq

structure S3BucketSpec where
  bucketName : String
  region : String
  awsCredsSecretRef : SecretRef
deriving Repr, DecidableEq

structure S3Bucket where
  spec : S3BucketSpec
  annots : Option AnnMap
  finalizers : List String
  deletionTimestamp : Option Nat
  generation : Nat
deriving Repr, DecidableEq

structure Secret where
  data : List (String × String)
deriving Repr, DecidableEq

structure Creds where
  accessKeyID : String
  secretAccessKey : String
deriving Repr, DecidableEq

/-- `string(s.Data[k])`: a missing key yields nil bytes, i.e. the empty string. -/
def lookupData (d : List (String × String)) (k : String) : String :=
  match d.find? (fun p => p.1 == k) with
  | some p => p.2
  | none => ""

/-- The credentials.Value built in handleCreate/handleDelete (controller lines 116-119, 187-190). -/
def credsFromSecret (s : Secret) : Creds :=
  { accessKeyID := lookupData s.data "aws_access_key_id"
    secretAccessKey := lookupData s.data "aws_secret_access_key" }

/-- `controllerutil.AddFinalizer`: append the token if absent. -/
def addFinalizer (fs : List String) (f : String) : List String :=
  if fs.contains f then fs else fs ++ [f]

/-- `controllerutil.RemoveFinalizer`: remove every occurrence of the token. -/
def removeFinalizer (fs : List String) (f : String) : List String :=
  fs.filter (fun x => x != f)

/-- `obj.Annotations[StateAnnotKey] = v`: an in-place write into the existing
annotation map; on a nil map the Go program panics, rendered as `none`. -/
def stampState (o : S3Bucket) (v : String) : Option S3Bucket :=
  match o.annots with
  | none => none
  | some m => some { o with annots := some (setAnnList m StateAnnotKey v) }

/-! Handler environments: the outcome of each external call a handler makes,
in program order.  `none` in an `Option String` slot means the call succeeded. -/

structure CreateEnv where
  getSecret : Except String Secret
  newSession : Option String
  createBucket : Option String
  waitExists : Option String
  patch : Option String
deriving Repr

structure DeleteEnv where
  getSecret : Except String Secret
  newSession : Option String
  deleteBucket : Option String
  waitNotExists : Option String
  patch : Option String
deriving Repr

deriving instance DecidableEq for Except

/-- What one handler invocation did: its returned error (if any), the patches it
issued against the object store, and the credentials it opened the AWS session
with (`none` when the session step was never reached). -/
structure HandlerRun where
  result : Except String Unit
  storeWrites : List S3Bucket
  sessionCreds : Option Creds
deriving Repr, DecidableEq

/-- handleCreate (controller lines 102-161): secret lookup, session, CreateBucket,
WaitUntilBucketExists, then one patch adding the finalizer and stamping `created`.
Overall `none` models the panic of the annotation write on a nil map. -/
def handleCreate (env : CreateEnv) (b : S3Bucket) : Option HandlerRun :=
  match env.getSecret with
  | .error e => some ⟨.error e, [], none⟩
  | .ok s =>
    let creds := credsFromSecret s
    match env.newSession with
    | some e => some ⟨.error e, [], some creds⟩
    | none =>
      match env.createBucket with
      | some e => some ⟨.error e, [], some creds⟩
      | none =>
        match env.waitExists with
        | some e => some ⟨.error e, [], some creds⟩
        | none =>
          match stampState { b with finalizers := addFinalizer b.finalizers DeletionFinalizer } CreatedEvent with
          | none => none
          | some b2 =>
            match env.patch with
            | some e => some ⟨.error e, [], some creds⟩
            | none => some ⟨.ok (), [b2], some creds⟩

/-- handleDelete (controller lines 173-232): secret lookup, session, DeleteBucket,
WaitUntilBucketNotExists, then one patch removing the finalizer and stamping `deleted`. -/
def handleDelete (env : DeleteEnv) (b : S3Bucket) : Option HandlerRun :=
  match env.getSecret with
  | .error e => some ⟨.error e, [], none⟩
  | .ok s =>
    let creds := credsFromSecret s
    match env.newSession with
    | some e => some ⟨.error e, [], some creds⟩
    | none =>
      match env.deleteBucket with
      | some e => some ⟨.error e, [], some creds⟩
      | none =>
        match env.waitNotExists with
        | some e => some ⟨.error e, [], some creds⟩
        | none =>
          match stampState { b with finalizers := removeFinalizer b.finalizers DeletionFinalizer } DeletedEvent with
          | none => none
          | some b2 =>
            match env.patch with
            | some e => some ⟨.error e, [], some creds⟩
            | none => some ⟨.ok (), [b2], some creds⟩

/-! The Reconcile entry point (controller lines 65-100). -/

inductive FetchResult where
  | found (b : S3Bucket)
  | notFound
  | failed (e : String)
deriving Repr

inductive Dispatch where
  | createH
  | deleteH
  | genericH
  | noop
deriving Repr, DecidableEq

/-- The switch on `b.Annotations[models.StateAnnotation]` (controller lines 82-99):
`creating` and `deleting` dispatch handlers, `generic` logs and returns, every
other value (including `updating`) falls through to success. -/
def reconcileDispatch (b : S3Bucket) : Dispatch :=
  if getAnn b.annots StateAnnotKey = CreatingEvent then .createH
  else if getAnn b.annots StateAnnotKey = DeletingEvent then .deleteH
  else if getAnn b.annots StateAnnotKey = GenericEvent then .genericH
  else .noop

structure ReconcileEnv where
  fetch : FetchResult
  createEnv : CreateEnv
  deleteEnv : DeleteEnv

/-- Reconcile (controller lines 65-100): a not-found fetch is success, any other
fetch error is returned, otherwise dispatch on the state annotation. -/
def reconcile (env : ReconcileEnv) : Option HandlerRun :=
  match env.fetch with
  | .notFound => some ⟨.ok (), [], none⟩
  | .failed e => some ⟨.error e, [], none⟩
  | .found b =>
    match reconcileDispatch b with
    | .createH => handleCreate env.createEnv b
    | .deleteH => handleDelete env.deleteEnv b
    | .genericH => some ⟨.ok (), [], none⟩
    | .noop => some ⟨.ok (), [], none⟩

/-! Event classifier: the predicate.Funcs installed in SetupWithManager
(controller lines 236-265).  Each returns the admit decision together with the
(possibly stamped) in-memory event object; `none` models the nil-map panic of
the annotation write. -/

/-- CreateFunc (lines 238-246): stamp `deleting` when a deletion timestamp is
present, else stamp `creating`; always admit. -/
def createFunc (o : S3Bucket) : Option (Bool × S3Bucket) :=
  if o.deletionTimestamp ≠ none then
    (stampState o DeletingEvent).map (fun o2 => (true, o2))
  else
    (stampState o CreatingEvent).map (fun o2 => (true, o2))

/-- UpdateFunc (lines 247-260): reject when the generation is unchanged;
otherwise stamp `deleting` when a deletion timestamp is present, else `updating`,
and admit. -/
def updateFunc (oldObj newObj : S3Bucket) : Option (Bool × S3Bucket) :=
  if newObj.generation = oldObj.generation then some (false, newObj)
  else if newObj.deletionTimestamp ≠ none then
    (stampState newObj DeletingEvent).map (fun o2 => (true, o2))
  else
    (stampState newObj UpdatingEvent).map (fun o2 => (true, o2))

/-- GenericFunc (lines 261-264): stamp `generic`; always admit. -/
def genericFunc (o : S3Bucket) : Option (Bool × S3Bucket) :=
  (stampState o GenericEvent).map (fun o2 => (true, o2))

/-! Admission against an explicit object store.  The predicate bodies contain no
store call: they mutate only the in-memory event object, so admission returns
the store component unchanged. -/

abbrev Store := List (String × S3Bucket)

def storeGet (st : Store) (k : String) : Option S3Bucket :=
  (st.find? (fun p => p.1 == k)).map Prod.snd

/-- Admission of a create notification for key `k`: run CreateFunc on the
in-memory event object; no write is issued against the store. -/
def admitCreate (st : Store) (k : String) (o : S3Bucket) : Option (Bool × S3Bucket × Store) :=
  (createFunc o).map (fun r => (r.1, r.2, st))

/-- Admission of an update notification: run UpdateFunc; no store write. -/
def admitUpdate (st : Store) (k : String) (oldObj newObj : S3Bucket) : Option (Bool × S3Bucket × Store) :=
  (updateFunc oldObj newObj).map (fun r => (r.1, r.2, st))

/-- Admission of a generic notification: run GenericFunc; no store write. -/
def admitGeneric (st : Store) (k : String) (o : S3Bucket) : Option (Bool × S3Bucket × Store) :=
  (genericFunc o).map (fun r => (r.1, r.2, st))

/-! Retry scheduler. -/

/-- Modelled from the spec: the package `internal/ratelimiter`
(`NewItemExponentialFailureRateLimiterWithMaxTries`, `DefaultBaseDelay`,
`DefaultMaxDelay`) is referenced from SetupWithManager (line 267) but its source
is not under src/.  Per the spec (§4.4): on each failure of a key the delay is
`min(baseDelay * 2^failureCount, maxDelay)`, the per-key failure count then
increments, and once the configured maximum retry count is reached the key is
dropped and no longer retried. -/
structure RateLimiter where
  baseDelay : Nat
  maxDelay : Nat
  maxTries : Nat
  failures : List (String × Nat)
deriving Repr, DecidableEq

def mkRateLimiter (base maxD tries : Nat) : RateLimiter :=
  { baseDelay := base, maxDelay := maxD, maxTries := tries, failures := [] }

def failuresOf (rl : RateLimiter) (k : String) : Nat :=
  match rl.failures.find? (fun p => p.1 == k) with
  | some p => p.2
  | none => 0

def bumpFailures (rl : RateLimiter) (k : String) : RateLimiter :=
  { rl with failures := (k, failuresOf rl k + 1) :: rl.failures.filter (fun p => p.1 != k) }

/-- One failure of key `k`: `none` when the key has exhausted its retries and is
dropped, otherwise the backoff delay before the next attempt. -/
def whenDelay (rl : RateLimiter) (k : String) : Option Nat × RateLimiter :=
  if rl.maxTries ≤ failuresOf rl k then (none, rl)
  else (some (min (rl.baseDelay * 2 ^ failuresOf rl k) rl.maxDelay), bumpFailures rl k)

/-- The delays scheduled for `n` consecutive failures of key `k`. -/
def delaysFor (rl : RateLimiter) (k : String) : Nat → List (Option Nat)
  | 0 => []
  | n + 1 => (whenDelay rl k).1 :: delaysFor (whenDelay rl k).2 k n

/-! Helper lemmas. -/

theorem getAnnList_setAnnList_same (m : AnnMap) (k v : String) :
    getAnnList (setAnnList m k v) k = v := by
  simp [getAnnList, setAnnList]

theorem stampState_eq_some (b : S3Bucket) (m : AnnMap) (v : String) (h : b.annots = some m) :
    stampState b v = some { b with annots := some (setAnnList m StateAnnotKey v) } := by
  simp [stampState, h]

theorem contains_addFinalizer (fs : List String) (f : String) :
    (addFinalizer fs f).contains f = true := by
  by_cases h : fs.contains f <;> simp_all [addFinalizer]

theorem contains_removeFinalizer (fs : List String) (f : String) :
    (removeFinalizer fs f).contains f = false := by
  simp [removeFinalizer]

theorem reconcileDispatch_creating (b : S3Bucket)
    (h : getAnn b.annots StateAnnotKey = CreatingEvent) : reconcileDispatch b = .createH := by
  simp [reconcileDispatch, h]

theorem reconcileDispatch_deleting (b : S3Bucket)
    (h : getAnn b.annots StateAnnotKey = DeletingEvent) : reconcileDispatch b = .deleteH := by
  simp [reconcileDispatch, h, DeletingEvent, CreatingEvent]

theorem reconcileDispatch_generic (b : S3Bucket)
    (h : getAnn b.annots StateAnnotKey = GenericEvent) : reconcileDispatch b = .genericH := by
  simp [reconcileDispatch, h, GenericEvent, CreatingEvent, DeletingEvent]

theorem reconcileDispatch_noop (b : S3Bucket)
    (hc : getAnn b.annots StateAnnotKey ≠ CreatingEvent)
    (hd : getAnn b.annots StateAnnotKey ≠ DeletingEvent)
    (hg : getAnn b.annots StateAnnotKey ≠ GenericEvent) : reconcileDispatch b = .noop := by
  simp [reconcileDispatch, hc, hd, hg]

/-- C1: after a successful create-handler run the deletion-guard finalizer is
present and the phase annotation is `created`; after a successful delete-handler
run the finalizer is absent and the phase is `deleted`; in each handler both
changes land in a single store write (the one patch). -/
theorem create_delete_success_single_patch
    (b : S3Bucket) (m : AnnMap) (ce : CreateEnv) (de : DeleteEnv) (s s2 : Secret)
    (hm : b.annots = some m)
    (h1 : ce.getSecret = .ok s) (h2 : ce.newSession = none)
    (h3 : ce.createBucket = none) (h4 : ce.waitExists = none) (h5 : ce.patch = none)
    (g1 : de.getSecret = .ok s2) (g2 : de.newSession = none)
    (g3 : de.deleteBucket = none) (g4 : de.waitNotExists = none) (g5 : de.patch = none) :
    (∃ b2, handleCreate ce b = some ⟨.ok (), [b2], some (credsFromSecret s)⟩ ∧
      b2.finalizers.contains DeletionFinalizer = true ∧
      getAnn b2.annots StateAnnotKey = CreatedEvent) ∧
    (∃ b3, handleDelete de b = some ⟨.ok (), [b3], some (credsFromSecret s2)⟩ ∧
      b3.finalizers.contains DeletionFinalizer = false ∧
      getAnn b3.annots StateAnnotKey = DeletedEvent) := by
  constructor
  · refine ⟨{ b with finalizers := addFinalizer b.finalizers DeletionFinalizer, annots := some (setAnnList m StateAnnotKey CreatedEvent) }, ?_, ?_, ?_⟩
    · simp [handleCreate, h1, h2, h3, h4, h5, stampState, hm]
    · exact contains_addFinalizer b.finalizers DeletionFinalizer
    · simp [getAnn, getAnnList_setAnnList_same]
  · refine ⟨{ b with finalizers := removeFinalizer b.finalizers DeletionFinalizer, annots := some (setAnnList m StateAnnotKey DeletedEvent) }, ?_, ?_, ?_⟩
    · simp [handleDelete, g1, g2, g3, g4, g5, stampState, hm]
    · exact contains_removeFinalizer b.finalizers DeletionFinalizer
    · simp [getAnn, getAnnList_setAnnList_same]

/-- Witness for C1 at a concrete bucket, secret and all-success environments. -/
theorem create_delete_success_single_patch_witness :
    (∃ b2, handleCreate ⟨.ok ⟨[]⟩, none, none, none, none⟩
        ⟨⟨"b1", "eu-1", ⟨"s", "ns"⟩⟩, some [], [], none, 1⟩ =
        some ⟨.ok (), [b2], some (credsFromSecret ⟨[]⟩)⟩ ∧
      b2.finalizers.contains DeletionFinalizer = true ∧
      getAnn b2.annots StateAnnotKey = CreatedEvent) ∧
    (∃ b3, handleDelete ⟨.ok ⟨[]⟩, none, none, none, none⟩
        ⟨⟨"b1", "eu-1", ⟨"s", "ns"⟩⟩, some [], [], none, 1⟩ =
        some ⟨.ok (), [b3], some (credsFromSecret ⟨[]⟩)⟩ ∧
      b3.finalizers.contains DeletionFinalizer = false ∧
      getAnn b3.annots StateAnnotKey = DeletedEvent) :=
  create_delete_success_single_patch
    ⟨⟨"b1", "eu-1", ⟨"s", "ns"⟩⟩, some [], [], none, 1⟩ []
    ⟨.ok ⟨[]⟩, none, none, none, none⟩ ⟨.ok ⟨[]⟩, none, none, none, none⟩ ⟨[]⟩ ⟨[]⟩
    rfl rfl rfl rfl rfl rfl rfl rfl rfl rfl rfl

/-- C2: reconcile returns success on a not-found fetch, surfaces every other
fetch error, dispatches `creating` to the create handler and `deleting` to the
delete handler, and is a successful no-op on `generic` and on any other
annotation value (including `updating`). -/
theorem reconcile_dispatch_behaviour (env : ReconcileEnv) :
    (env.fetch = .notFound → reconcile env = some ⟨.ok (), [], none⟩) ∧
    (∀ e, env.fetch = .failed e → reconcile env = some ⟨.error e, [], none⟩) ∧
    (∀ b, env.fetch = .found b →
      (getAnn b.annots StateAnnotKey = CreatingEvent →
        reconcile env = handleCreate env.createEnv b) ∧
      (getAnn b.annots StateAnnotKey = DeletingEvent →
        reconcile env = handleDelete env.deleteEnv b) ∧
      (getAnn b.annots StateAnnotKey = GenericEvent →
        reconcile env = some ⟨.ok (), [], none⟩) ∧
      (getAnn b.annots StateAnnotKey ≠ CreatingEvent →
        getAnn b.annots StateAnnotKey ≠ DeletingEvent →
        getAnn b.annots StateAnnotKey ≠ GenericEvent →
        reconcile env = some ⟨.ok (), [], none⟩)) := by
  refine ⟨fun h => by simp [reconcile, h], fun e h => by simp [reconcile, h], fun b h => ?_⟩
  refine ⟨fun hs => ?_, fun hs => ?_, fun hs => ?_, fun hc hd hg => ?_⟩
  · simp [reconcile, h, reconcileDispatch_creating b hs]
  · simp [reconcile, h, reconcileDispatch_deleting b hs]
  · simp [reconcile, h, reconcileDispatch_generic b hs]
  · simp [reconcile, h, reconcileDispatch_noop b hc hd hg]

/-- Witness for C2 on the four fetch/annotation shapes, at concrete inputs. -/
theorem reconcile_dispatch_behaviour_witness :
    reconcile ⟨.notFound, ⟨.ok ⟨[]⟩, none, none, none, none⟩, ⟨.ok ⟨[]⟩, none, none, none, none⟩⟩ =
      some ⟨.ok (), [], none⟩ ∧
    reconcile ⟨.failed "boom", ⟨.ok ⟨[]⟩, none, none, none, none⟩, ⟨.ok ⟨[]⟩, none, none, none, none⟩⟩ =
      some ⟨.error "boom", [], none⟩ ∧
    reconcile ⟨.found ⟨⟨"b1", "eu-1", ⟨"s", "ns"⟩⟩, some [(StateAnnotKey, UpdatingEvent)], [], none, 1⟩,
        ⟨.ok ⟨[]⟩, none, none, none, none⟩, ⟨.ok ⟨[]⟩, none, none, none, none⟩⟩ =
      some ⟨.ok (), [], none⟩ :=
  ⟨(reconcile_dispatch_behaviour _).1 rfl,
   ((reconcile_dispatch_behaviour _).2.1 "boom" rfl),
   (((reconcile_dispatch_behaviour _).2.2 _ rfl).2.2.2 (by decide) (by decide) (by decide))⟩

/-- C3 counterexample: a fetched object whose deletion timestamp is set but
whose phase annotation reads `creating` dispatches the create handler, not the
delete handler — Reconcile never consults the deletion timestamp. -/
theorem deletion_ts_not_authoritative_cex :
    (⟨⟨"b1", "eu-1", ⟨"s", "ns"⟩⟩, some [(StateAnnotKey, CreatingEvent)], [], some 1, 1⟩ : S3Bucket).deletionTimestamp ≠ none ∧
    reconcileDispatch ⟨⟨"b1", "eu-1", ⟨"s", "ns"⟩⟩, some [(StateAnnotKey, CreatingEvent)], [], some 1, 1⟩ = .createH ∧
    Dispatch.createH ≠ Dispatch.deleteH := by
  decide

/-- C3 amended: reconciliation dispatch depends only on the phase annotation —
the delete handler runs exactly when the annotation reads `deleting` (the value
the classifier stamps for deletion-timestamped notifications it admits), and
changing the deletion timestamp alone never changes the dispatch. -/
theorem teardown_dispatch_annotation_only (b : S3Bucket) :
    (reconcileDispatch b = .deleteH ↔ getAnn b.annots StateAnnotKey = DeletingEvent) ∧
    (∀ t, reconcileDispatch { b with deletionTimestamp := t } = reconcileDispatch b) := by
  constructor
  · constructor
    · intro hb
      by_cases hc : getAnn b.annots StateAnnotKey = CreatingEvent
      · rw [reconcileDispatch_creating b hc] at hb; cases hb
      · by_cases hd : getAnn b.annots StateAnnotKey = DeletingEvent
        · exact hd
        · by_cases hg : getAnn b.annots StateAnnotKey = GenericEvent
          · rw [reconcileDispatch_generic b hg] at hb; cases hb
          · rw [reconcileDispatch_noop b hc hd hg] at hb; cases hb
    · exact reconcileDispatch_deleting b
  · intro t; rfl

/-- Witness for the amended C3 at a `deleting`-annotated object. -/
theorem teardown_dispatch_annotation_only_witness :
    (reconcileDispatch ⟨⟨"b1", "eu-1", ⟨"s", "ns"⟩⟩, some [(StateAnnotKey, DeletingEvent)], [], none, 1⟩ = .deleteH ↔
      getAnn (some [(StateAnnotKey, DeletingEvent)]) StateAnnotKey = DeletingEvent) ∧
    reconcileDispatch { (⟨⟨"b1", "eu-1", ⟨"s", "ns"⟩⟩, some [(StateAnnotKey, DeletingEvent)], [], none, 1⟩ : S3Bucket) with deletionTimestamp := some 7 } =
      reconcileDispatch ⟨⟨"b1", "eu-1", ⟨"s", "ns"⟩⟩, some [(StateAnnotKey, DeletingEvent)], [], none, 1⟩ :=
  ⟨(teardown_dispatch_annotation_only ⟨⟨"b1", "eu-1", ⟨"s", "ns"⟩⟩, some [(StateAnnotKey, DeletingEvent)], [], none, 1⟩).1,
   (teardown_dispatch_annotation_only ⟨⟨"b1", "eu-1", ⟨"s", "ns"⟩⟩, some [(StateAnnotKey, DeletingEvent)], [], none, 1⟩).2 (some 7)⟩

/-- C4 counterexample: admitting a create notification stamps `creating` on the
in-memory event object while the store still holds the unstamped object, so a
restarted reconciler re-reading the store does not see the stamp. -/
theorem classifier_stamp_not_persisted_cex :
    admitCreate [("k", ⟨⟨"b1", "eu-1", ⟨"s", "ns"⟩⟩, some [], [], none, 1⟩)] "k"
        ⟨⟨"b1", "eu-1", ⟨"s", "ns"⟩⟩, some [], [], none, 1⟩ =
      some (true, ⟨⟨"b1", "eu-1", ⟨"s", "ns"⟩⟩, some [(StateAnnotKey, CreatingEvent)], [], none, 1⟩,
        [("k", ⟨⟨"b1", "eu-1", ⟨"s", "ns"⟩⟩, some [], [], none, 1⟩)]) ∧
    getAnn (some [(StateAnnotKey, CreatingEvent)]) StateAnnotKey = CreatingEvent ∧
    storeGet [("k", ⟨⟨"b1", "eu-1", ⟨"s", "ns"⟩⟩, some [], [], none, 1⟩)] "k" =
      some ⟨⟨"b1", "eu-1", ⟨"s", "ns"⟩⟩, some [], [], none, 1⟩ ∧
    getAnn (some ([] : AnnMap)) StateAnnotKey ≠ CreatingEvent := by
  decide

/-- C4 amended: the classifier's phase stamps mutate only the in-memory event
object — admission issues no store write, so a stamp survives neither a re-read
from the store nor a process restart; only the handlers' success patches persist
a phase value. -/
theorem classifier_stamp_in_memory_only (st : Store) (k : String) (o oldObj newObj : S3Bucket) :
    (∀ r, admitCreate st k o = some r → r.2.2 = st) ∧
    (∀ r, admitUpdate st k oldObj newObj = some r → r.2.2 = st) ∧
    (∀ r, admitGeneric st k o = some r → r.2.2 = st) := by
  refine ⟨fun r hr => ?_, fun r hr => ?_, fun r hr => ?_⟩
  · cases hc : createFunc o with
    | none => simp [admitCreate, hc] at hr
    | some p => simp [admitCreate, hc] at hr; rw [← hr]
  · cases hc : updateFunc oldObj newObj with
    | none => simp [admitUpdate, hc] at hr
    | some p => simp [admitUpdate, hc] at hr; rw [← hr]
  · cases hc : genericFunc o with
    | none => simp [admitGeneric, hc] at hr
    | some p => simp [admitGeneric, hc] at hr; rw [← hr]

/-- Witness for the amended C4 at a concrete store and object. -/
theorem classifier_stamp_in_memory_only_witness :
    (⟨true, ⟨⟨"b1", "eu-1", ⟨"s", "ns"⟩⟩, some [(StateAnnotKey, GenericEvent)], [], none, 1⟩,
      [("k", ⟨⟨"b1", "eu-1", ⟨"s", "ns"⟩⟩, some [], [], none, 1⟩)]⟩ :
        Bool × S3Bucket × Store).2.2 =
      [("k", ⟨⟨"b1", "eu-1", ⟨"s", "ns"⟩⟩, some [], [], none, 1⟩)] :=
  (classifier_stamp_in_memory_only
      [("k", ⟨⟨"b1", "eu-1", ⟨"s", "ns"⟩⟩, some [], [], none, 1⟩)] "k"
      ⟨⟨"b1", "eu-1", ⟨"s", "ns"⟩⟩, some [], [], none, 1⟩
      ⟨⟨"b1", "eu-1", ⟨"s", "ns"⟩⟩, some [], [], none, 1⟩
      ⟨⟨"b1", "eu-1", ⟨"s", "ns"⟩⟩, some [], [], none, 1⟩).2.2 _ (by decide)

/-- C5: an update notification whose generation equals the previous snapshot's
generation is rejected: not admitted and no phase annotation written. -/
theorem update_same_generation_rejected (oldObj newObj : S3Bucket)
    (h : newObj.generation = oldObj.generation) :
    updateFunc oldObj newObj = some (false, newObj) := by
  simp [updateFunc, h]

/-- Witness for C5 at two snapshots of equal generation. -/
theorem update_same_generation_rejected_witness :
    updateFunc ⟨⟨"b1", "eu-1", ⟨"s", "ns"⟩⟩, some [], [], none, 4⟩
        ⟨⟨"b1", "eu-1", ⟨"s", "ns"⟩⟩, some [(StateAnnotKey, CreatedEvent)], [], none, 4⟩ =
      some (false, ⟨⟨"b1", "eu-1", ⟨"s", "ns"⟩⟩, some [(StateAnnotKey, CreatedEvent)], [], none, 4⟩) :=
  update_same_generation_rejected
    ⟨⟨"b1", "eu-1", ⟨"s", "ns"⟩⟩, some [], [], none, 4⟩
    ⟨⟨"b1", "eu-1", ⟨"s", "ns"⟩⟩, some [(StateAnnotKey, CreatedEvent)], [], none, 4⟩ rfl

/-- C6 counterexample: an update notification whose object carries a deletion
timestamp but whose generation is unchanged is rejected with no stamp — it is
not stamped `deleting`. -/
theorem deletion_ts_update_unstamped_cex :
    updateFunc ⟨⟨"b1", "eu-1", ⟨"s", "ns"⟩⟩, some [(StateAnnotKey, CreatedEvent)], [DeletionFinalizer], none, 1⟩
        ⟨⟨"b1", "eu-1", ⟨"s", "ns"⟩⟩, some [(StateAnnotKey, CreatedEvent)], [DeletionFinalizer], some 3, 1⟩ =
      some (false, ⟨⟨"b1", "eu-1", ⟨"s", "ns"⟩⟩, some [(StateAnnotKey, CreatedEvent)], [DeletionFinalizer], some 3, 1⟩) ∧
    (⟨⟨"b1", "eu-1", ⟨"s", "ns"⟩⟩, some [(StateAnnotKey, CreatedEvent)], [DeletionFinalizer], some 3, 1⟩ : S3Bucket).deletionTimestamp ≠ none ∧
    getAnn (some [(StateAnnotKey, CreatedEvent)]) StateAnnotKey ≠ DeletingEvent := by
  decide

/-- C6 amended: a create notification carrying a deletion timestamp is stamped
`deleting`; an update notification carrying one is stamped `deleting` only when
the generation changed — a same-generation update is rejected without any
stamp (stamps assume the object's annotation map exists). -/
theorem deletion_ts_stamping (o oldObj newObj : S3Bucket) (m m2 : AnnMap)
    (hm : o.annots = some m) (hm2 : newObj.annots = some m2) :
    (o.deletionTimestamp ≠ none →
      createFunc o = some (true, { o with annots := some (setAnnList m StateAnnotKey DeletingEvent) })) ∧
    (newObj.deletionTimestamp ≠ none → newObj.generation ≠ oldObj.generation →
      updateFunc oldObj newObj = some (true, { newObj with annots := some (setAnnList m2 StateAnnotKey DeletingEvent) })) ∧
    (newObj.generation = oldObj.generation → updateFunc oldObj newObj = some (false, newObj)) := by
  refine ⟨fun ht => ?_, fun ht hg => ?_, fun hg => ?_⟩
  · simp [createFunc, ht, stampState, hm]
  · simp [updateFunc, hg, ht, stampState, hm2]
  · simp [updateFunc, hg]

/-- Witness for the amended C6 at deletion-timestamped objects. -/
theorem deletion_ts_stamping_witness :
    createFunc ⟨⟨"b1", "eu-1", ⟨"s", "ns"⟩⟩, some [], [], some 2, 1⟩ =
      some (true, { (⟨⟨"b1", "eu-1", ⟨"s", "ns"⟩⟩, some [], [], some 2, 1⟩ : S3Bucket) with
        annots := some (setAnnList [] StateAnnotKey DeletingEvent) }) ∧
    updateFunc ⟨⟨"b1", "eu-1", ⟨"s", "ns"⟩⟩, some [], [], none, 1⟩
        ⟨⟨"b1", "eu-1", ⟨"s", "ns"⟩⟩, some [], [], some 2, 2⟩ =
      some (true, { (⟨⟨"b1", "eu-1", ⟨"s", "ns"⟩⟩, some [], [], some 2, 2⟩ : S3Bucket) with
        annots := some (setAnnList [] StateAnnotKey DeletingEvent) }) :=
  ⟨(deletion_ts_stamping ⟨⟨"b1", "eu-1", ⟨"s", "ns"⟩⟩, some [], [], some 2, 1⟩
      ⟨⟨"b1", "eu-1", ⟨"s", "ns"⟩⟩, some [], [], none, 1⟩
      ⟨⟨"b1", "eu-1", ⟨"s", "ns"⟩⟩, some [], [], some 2, 2⟩ [] []
      rfl rfl).1 (by decide),
   (deletion_ts_stamping ⟨⟨"b1", "eu-1", ⟨"s", "ns"⟩⟩, some [], [], some 2, 1⟩
      ⟨⟨"b1", "eu-1", ⟨"s", "ns"⟩⟩, some [], [], none, 1⟩
      ⟨⟨"b1", "eu-1", ⟨"s", "ns"⟩⟩, some [], [], some 2, 2⟩ [] []
      rfl rfl).2.1 (by decide) (by decide)⟩

/-- C7: a failure at any step before the final patch surfaces as an error with
no store write issued, so the persisted object is untouched: for the create
handler the phase stays `creating` and no finalizer was added, and for the
delete handler the finalizer stays in place and the phase is not `deleted`. -/
theorem handler_prepatch_failure_store_unchanged (ce : CreateEnv) (de : DeleteEnv) (b : S3Bucket) :
    ((∃ e, ce.getSecret = .error e) ∨ ce.newSession ≠ none ∨ ce.createBucket ≠ none ∨ ce.waitExists ≠ none →
      ∃ r, handleCreate ce b = some r ∧ (∃ e, r.result = .error e) ∧ r.storeWrites = []) ∧
    ((∃ e, de.getSecret = .error e) ∨ de.newSession ≠ none ∨ de.deleteBucket ≠ none ∨ de.waitNotExists ≠ none →
      ∃ r, handleDelete de b = some r ∧ (∃ e, r.result = .error e) ∧ r.storeWrites = []) := by
  constructor
  · intro h
    cases hgs : ce.getSecret with
    | error e => exact ⟨⟨.error e, [], none⟩, by simp [handleCreate, hgs], ⟨e, rfl⟩, rfl⟩
    | ok s =>
      cases hns : ce.newSession with
      | some e => exact ⟨⟨.error e, [], some (credsFromSecret s)⟩, by simp [handleCreate, hgs, hns], ⟨e, rfl⟩, rfl⟩
      | none =>
        cases hcb : ce.createBucket with
        | some e => exact ⟨⟨.error e, [], some (credsFromSecret s)⟩, by simp [handleCreate, hgs, hns, hcb], ⟨e, rfl⟩, rfl⟩
        | none =>
          cases hwe : ce.waitExists with
          | some e => exact ⟨⟨.error e, [], some (credsFromSecret s)⟩, by simp [handleCreate, hgs, hns, hcb, hwe], ⟨e, rfl⟩, rfl⟩
          | none =>
            exfalso
            rcases h with ⟨e, he⟩ | hn | hc | hw
            · rw [hgs] at he; cases he
            · exact hn hns
            · exact hc hcb
            · exact hw hwe
  · intro h
    cases hgs : de.getSecret with
    | error e => exact ⟨⟨.error e, [], none⟩, by simp [handleDelete, hgs], ⟨e, rfl⟩, rfl⟩
    | ok s =>
      cases hns : de.newSession with
      | some e => exact ⟨⟨.error e, [], some (credsFromSecret s)⟩, by simp [handleDelete, hgs, hns], ⟨e, rfl⟩, rfl⟩
      | none =>
        cases hdb : de.deleteBucket with
        | some e => exact ⟨⟨.error e, [], some (credsFromSecret s)⟩, by simp [handleDelete, hgs, hns, hdb], ⟨e, rfl⟩, rfl⟩
        | none =>
          cases hwn : de.waitNotExists with
          | some e => exact ⟨⟨.error e, [], some (credsFromSecret s)⟩, by simp [handleDelete, hgs, hns, hdb, hwn], ⟨e, rfl⟩, rfl⟩
          | none =>
            exfalso
            rcases h with ⟨e, he⟩ | hn | hd | hw
            · rw [hgs] at he; cases he
            · exact hn hns
            · exact hd hdb
            · exact hw hwn

/-- Witness for C7 with a failing await step in each handler. -/
theorem handler_prepatch_failure_store_unchanged_witness :
    (∃ r, handleCreate ⟨.ok ⟨[]⟩, none, none, some "timeout", none⟩
        ⟨⟨"b1", "eu-1", ⟨"s", "ns"⟩⟩, some [(StateAnnotKey, CreatingEvent)], [], none, 1⟩ = some r ∧
      (∃ e, r.result = .error e) ∧ r.storeWrites = []) ∧
    (∃ r, handleDelete ⟨.ok ⟨[]⟩, none, none, some "timeout", none⟩
        ⟨⟨"b1", "eu-1", ⟨"s", "ns"⟩⟩, some [(StateAnnotKey, CreatingEvent)], [], none, 1⟩ = some r ∧
      (∃ e, r.result = .error e) ∧ r.storeWrites = []) :=
  ⟨(handler_prepatch_failure_store_unchanged ⟨.ok ⟨[]⟩, none, none, some "timeout", none⟩
      ⟨.ok ⟨[]⟩, none, none, some "timeout", none⟩
      ⟨⟨"b1", "eu-1", ⟨"s", "ns"⟩⟩, some [(StateAnnotKey, CreatingEvent)], [], none, 1⟩).1
      (Or.inr (Or.inr (Or.inr (by decide)))),
   (handler_prepatch_failure_store_unchanged ⟨.ok ⟨[]⟩, none, none, some "timeout", none⟩
      ⟨.ok ⟨[]⟩, none, none, some "timeout", none⟩
      ⟨⟨"b1", "eu-1", ⟨"s", "ns"⟩⟩, some [(StateAnnotKey, CreatingEvent)], [], none, 1⟩).2
      (Or.inr (Or.inr (Or.inr (by decide))))⟩

/-- C8 (spec-modelled retry scheduler): the delay after n prior failures of a
key is min(baseDelay · 2^n, maxDelay); three consecutive failures of a fresh key
schedule base, base·2, base·4 (each capped at maxDelay); a key that has reached
the maximum retry count is dropped and not retried. -/
theorem ratelimiter_backoff_sequence (base maxD tries : Nat) (k : String) (rl : RateLimiter)
    (h3 : 3 ≤ tries) :
    delaysFor (mkRateLimiter base maxD tries) k 3 =
      [some (min base maxD), some (min (base * 2) maxD), some (min (base * 4) maxD)] ∧
    (failuresOf rl k < rl.maxTries →
      (whenDelay rl k).1 = some (min (rl.baseDelay * 2 ^ failuresOf rl k) rl.maxDelay)) ∧
    (rl.maxTries ≤ failuresOf rl k → whenDelay rl k = (none, rl)) := by
  have h0 : ¬ tries ≤ 0 := by omega
  have h1 : ¬ tries ≤ 1 := by omega
  have h2 : ¬ tries ≤ 2 := by omega
  refine ⟨?_, fun h => ?_, fun h => ?_⟩
  · simp [delaysFor, whenDelay, mkRateLimiter, failuresOf, bumpFailures, h0, h1, h2,
      pow_succ, Nat.mul_assoc]
  · simp [whenDelay, Nat.not_le.mpr h]
  · simp [whenDelay, h]

/-- Witness for C8 with base 1, cap 100, 5 tries and an exhausted key. -/
theorem ratelimiter_backoff_sequence_witness :
    delaysFor (mkRateLimiter 1 100 5) "k" 3 =
      [some (min 1 100), some (min (1 * 2) 100), some (min (1 * 4) 100)] ∧
    whenDelay ⟨1, 100, 5, [("k", 5)]⟩ "k" = (none, ⟨1, 100, 5, [("k", 5)]⟩) :=
  ⟨(ratelimiter_backoff_sequence 1 100 5 "k" (mkRateLimiter 1 100 5) (by decide)).1,
   (ratelimiter_backoff_sequence 1 100 5 "k" ⟨1, 100, 5, [("k", 5)]⟩ (by decide)).2.2 (by decide)⟩

theorem lookupData_of_not_mem (d : List (String × String)) (k : String)
    (h : ∀ p ∈ d, p.1 ≠ k) : lookupData d k = "" := by
  have hf : d.find? (fun p => p.1 == k) = none :=
    List.find?_eq_none.mpr (fun x hx => by simpa using h x hx)
  simp [lookupData, hf]

/-- C9: when the referenced secret is found but its data lacks the
`aws_access_key_id` / `aws_secret_access_key` entries, credential resolution in
both handlers still succeeds with empty-string values — the session is opened
with empty credentials and the missing keys are never surfaced as an error. -/
theorem missing_secret_keys_empty_creds (s : Secret) (ce : CreateEnv) (de : DeleteEnv)
    (b : S3Bucket) (m : AnnMap)
    (hk : ∀ p ∈ s.data, p.1 ≠ "aws_access_key_id" ∧ p.1 ≠ "aws_secret_access_key")
    (hm : b.annots = some m)
    (h1 : ce.getSecret = .ok s) (h2 : ce.newSession = none) (h3 : ce.createBucket = none)
    (h4 : ce.waitExists = none) (h5 : ce.patch = none)
    (g1 : de.getSecret = .ok s) (g2 : de.newSession = none) (g3 : de.deleteBucket = none)
    (g4 : de.waitNotExists = none) (g5 : de.patch = none) :
    credsFromSecret s = ⟨"", ""⟩ ∧
    (∃ r, handleCreate ce b = some r ∧ r.result = .ok () ∧ r.sessionCreds = some ⟨"", ""⟩) ∧
    (∃ r, handleDelete de b = some r ∧ r.result = .ok () ∧ r.sessionCreds = some ⟨"", ""⟩) := by
  have hc : credsFromSecret s = ⟨"", ""⟩ := by
    unfold credsFromSecret
    rw [lookupData_of_not_mem _ _ (fun p hp => (hk p hp).1),
      lookupData_of_not_mem _ _ (fun p hp => (hk p hp).2)]
  refine ⟨hc, ?_, ?_⟩
  · refine ⟨⟨.ok (), [{ b with finalizers := addFinalizer b.finalizers DeletionFinalizer, annots := some (setAnnList m StateAnnotKey CreatedEvent) }], some ⟨"", ""⟩⟩, ?_, rfl, rfl⟩
    simp [handleCreate, h1, h2, h3, h4, h5, stampState, hm, hc]
  · refine ⟨⟨.ok (), [{ b with finalizers := removeFinalizer b.finalizers DeletionFinalizer, annots := some (setAnnList m StateAnnotKey DeletedEvent) }], some ⟨"", ""⟩⟩, ?_, rfl, rfl⟩
    simp [handleDelete, g1, g2, g3, g4, g5, stampState, hm, hc]

/-- Witness for C9 at a secret holding only an unrelated key. -/
theorem missing_secret_keys_empty_creds_witness :
    credsFromSecret ⟨[("other", "x")]⟩ = ⟨"", ""⟩ ∧
    (∃ r, handleCreate ⟨.ok ⟨[("other", "x")]⟩, none, none, none, none⟩
        ⟨⟨"b1", "eu-1", ⟨"s", "ns"⟩⟩, some [], [], none, 1⟩ = some r ∧
      r.result = .ok () ∧ r.sessionCreds = some ⟨"", ""⟩) ∧
    (∃ r, handleDelete ⟨.ok ⟨[("other", "x")]⟩, none, none, none, none⟩
        ⟨⟨"b1", "eu-1", ⟨"s", "ns"⟩⟩, some [], [], none, 1⟩ = some r ∧
      r.result = .ok () ∧ r.sessionCreds = some ⟨"", ""⟩) :=
  missing_secret_keys_empty_creds ⟨[("other", "x")]⟩
    ⟨.ok ⟨[("other", "x")]⟩, none, none, none, none⟩
    ⟨.ok ⟨[("other", "x")]⟩, none, none, none, none⟩
    ⟨⟨"b1", "eu-1", ⟨"s", "ns"⟩⟩, some [], [], none, 1⟩ []
    (by decide) rfl rfl rfl rfl rfl rfl rfl rfl rfl rfl rfl

/-- C10: every phase stamp — by the classifier funcs and by the handlers when
setting `created`/`deleted` — is an in-place write into the object's existing
annotation map, and is defined only when that map is non-nil: on a nil map each
stamping operation panics (`none`). -/
theorem stamp_requires_annot_map (o oldObj : S3Bucket) (v : String) (m : AnnMap)
    (ce : CreateEnv) (de : DeleteEnv) (s s2 : Secret) :
    (o.annots = some m →
      stampState o v = some { o with annots := some (setAnnList m StateAnnotKey v) }) ∧
    (o.annots = none →
      stampState o v = none ∧
      createFunc o = none ∧
      genericFunc o = none ∧
      (oldObj.generation ≠ o.generation → updateFunc oldObj o = none) ∧
      (ce.getSecret = .ok s → ce.newSession = none → ce.createBucket = none →
        ce.waitExists = none → handleCreate ce o = none) ∧
      (de.getSecret = .ok s2 → de.newSession = none → de.deleteBucket = none →
        de.waitNotExists = none → handleDelete de o = none)) := by
  constructor
  · intro hm
    exact stampState_eq_some o m v hm
  · intro hn
    refine ⟨by simp [stampState, hn], ?_, by simp [genericFunc, stampState, hn],
      fun hg => ?_, fun a1 a2 a3 a4 => ?_, fun a1 a2 a3 a4 => ?_⟩
    · by_cases ht : o.deletionTimestamp = none <;> simp [createFunc, ht, stampState, hn]
    · have hg2 : ¬ o.generation = oldObj.generation := fun he => hg he.symm
      by_cases ht : o.deletionTimestamp = none <;> simp [updateFunc, hg2, ht, stampState, hn]
    · simp [handleCreate, a1, a2, a3, a4, stampState, hn]
    · simp [handleDelete, a1, a2, a3, a4, stampState, hn]

/-- Witness for C10: the stamp panics on a nil map and rewrites an existing map. -/
theorem stamp_requires_annot_map_witness :
    stampState ⟨⟨"b1", "eu-1", ⟨"s", "ns"⟩⟩, none, [], none, 1⟩ "x" = none ∧
    createFunc ⟨⟨"b1", "eu-1", ⟨"s", "ns"⟩⟩, none, [], none, 1⟩ = none ∧
    stampState ⟨⟨"b1", "eu-1", ⟨"s", "ns"⟩⟩, some [], [], none, 1⟩ "x" =
      some { (⟨⟨"b1", "eu-1", ⟨"s", "ns"⟩⟩, some [], [], none, 1⟩ : S3Bucket) with
        annots := some (setAnnList [] StateAnnotKey "x") } :=
  ⟨((stamp_requires_annot_map ⟨⟨"b1", "eu-1", ⟨"s", "ns"⟩⟩, none, [], none, 1⟩
      ⟨⟨"b1", "eu-1", ⟨"s", "ns"⟩⟩, none, [], none, 1⟩ "x" []
      ⟨.ok ⟨[]⟩, none, none, none, none⟩ ⟨.ok ⟨[]⟩, none, none, none, none⟩ ⟨[]⟩ ⟨[]⟩).2 rfl).1,
   ((stamp_requires_annot_map ⟨⟨"b1", "eu-1", ⟨"s", "ns"⟩⟩, none, [], none, 1⟩
      ⟨⟨"b1", "eu-1", ⟨"s", "ns"⟩⟩, none, [], none, 1⟩ "x" []
      ⟨.ok ⟨[]⟩, none, none, none, none⟩ ⟨.ok ⟨[]⟩, none, none, none, none⟩ ⟨[]⟩ ⟨[]⟩).2 rfl).2.1,
   (stamp_requires_annot_map ⟨⟨"b1", "eu-1", ⟨"s", "ns"⟩⟩, some [], [], none, 1⟩
      ⟨⟨"b1", "eu-1", ⟨"s", "ns"⟩⟩, some [], [], none, 1⟩ "x" []
      ⟨.ok ⟨[]⟩, none, none, none, none⟩ ⟨.ok ⟨[]⟩, none, none, none, none⟩ ⟨[]⟩ ⟨[]⟩).1 rfl⟩

end KubeS3
